import Mathlib

/-!
Verification of the JWT token-service and rate-limiter components of the
FastAPI examples repository.

The token service is embedded from
`Course_by_ProgrammingKnowledge/11. JWT Access Token Creation/auth_utils.py`
and `Practices/jwt_practice.py`; the rate limiter from
`Youtube Tuts/12. Middleware Advanced(Rate Limit)/main.py`.

Python dictionaries with string keys are embedded as association lists in
insertion order; `dict.update`/`dict[k] = v` replaces the value at the first
occurrence of the key and otherwise appends.  Timestamps and durations are
embedded as integers (seconds) for the token service and as rationals (the
spec's abstract "time units") for the rate limiter.  The wall clock
(`datetime.now` / `time.time()`) is passed explicitly as a `now` argument.
-/

namespace AuthUtils

/-- A JSON-serializable claim value: the scripts only put strings and
(timestamp-encoded) datetimes/numbers into the claims mapping. -/
inductive JValue where
  | str (s : String)
  | num (n : ℤ)
deriving DecidableEq, Repr

/-- A Python `dict` of claims, in insertion order. -/
abbrev Claims := List (String × JValue)

/-- `d[k]` lookup on the first occurrence of the key. -/
def lookupClaim : Claims → String → Option JValue
  | [], _ => none
  | (k, v) :: rest, key => if k = key then some v else lookupClaim rest key

/-- `d.update({key: val})`: replace the value at the first occurrence of
`key`, keeping its position, or append `(key, val)` if absent. -/
def dictUpdate : Claims → String → JValue → Claims
  | [], key, val => [(key, val)]
  | (k, v) :: rest, key, val =>
    if k = key then (k, val) :: rest else (k, v) :: dictUpdate rest key val

/-- A token string of unconstrained origin.  A structurally well-formed token
determines a payload together with the secret and algorithm it was signed
with; anything else is a malformed string. -/
inductive TokenWire where
  | signed (payload : Claims) (secret : String) (alg : String)
  | malformed (raw : String)
deriving DecidableEq, Repr

/-- The failure kinds of `jose.jwt.decode`, all subclasses of `JWTError`. -/
inductive JWTErrKind where
  | invalidAlgorithm
  | invalidSignature
  | malformedToken
  | expiredSignature
  | invalidClaims
deriving DecidableEq, Repr

def SECRET_KEY : String := "ThisIsASecret"

def ALGORITHM : String := "HS256"

def ACCESS_TOKEN_EXPIRE_MINUTES : ℤ := 30

/-- Modelled from the spec: `jose.jwt.encode(payload, key, algorithm)` from the
external `python-jose` library (not part of this repository) — "serializes the
result into a compact signed token string using a symmetric secret and a fixed
signing algorithm identifier". -/
def jwtEncode (payload : Claims) (key : String) (alg : String) : TokenWire :=
  TokenWire.signed payload key alg

/-- Modelled from the spec: `jose.jwt.decode(token, key, algorithms)` from the
external `python-jose` library (not part of this repository) — "parses and
checks signature and expiry in one step using the shared secret and algorithm";
a token "is valid if and only if its signature verifies against the shared
secret AND the current time is before its encoded expiry".  Failures surface as
`JWTError` subclasses, here as `Except.error`. -/
def jwtDecode (w : TokenWire) (key : String) (algs : List String) (now : ℤ) :
    Except JWTErrKind Claims :=
  match w with
  | TokenWire.malformed _ => Except.error JWTErrKind.malformedToken
  | TokenWire.signed payload secret alg =>
    if alg ∈ algs then
      if secret = key then
        match lookupClaim payload "exp" with
        | some (JValue.num e) =>
          if now < e then Except.ok payload
          else Except.error JWTErrKind.expiredSignature
        | some (JValue.str _) => Except.error JWTErrKind.invalidClaims
        | none => Except.ok payload
      else Except.error JWTErrKind.invalidSignature
    else Except.error JWTErrKind.invalidAlgorithm

/-- `create_access_token` from
`Course_by_ProgrammingKnowledge/11. JWT Access Token Creation/auth_utils.py`.
Durations are in seconds, so the `timedelta(minutes=ACCESS_TOKEN_EXPIRE_MINUTES)`
default becomes `ACCESS_TOKEN_EXPIRE_MINUTES * 60`. -/
def create_access_token (now : ℤ) (data : Claims) (expires_delta : Option ℤ) :
    TokenWire :=
  let to_encode := data
  let expire := now +
    (match expires_delta with
     | none => ACCESS_TOKEN_EXPIRE_MINUTES * 60
     | some d => d)
  jwtEncode (dictUpdate to_encode "exp" (JValue.num expire)) SECRET_KEY ALGORITHM

/-- `decode_access_token` from
`Course_by_ProgrammingKnowledge/11. JWT Access Token Creation/auth_utils.py`:
the `try/except JWTError: return None` wrapper around `jwt.decode`. -/
def decode_access_token (now : ℤ) (token : TokenWire) : Option Claims :=
  match jwtDecode token SECRET_KEY [ALGORITHM] now with
  | Except.ok payload => some payload
  | Except.error _ => none

theorem lookupClaim_dictUpdate_self (m : Claims) (key : String) (val : JValue) :
    lookupClaim (dictUpdate m key val) key = some val := by
  induction m with
  | nil => simp [dictUpdate, lookupClaim]
  | cons hd tl ih =>
    by_cases h : hd.1 = key
    · simp [dictUpdate, lookupClaim, h]
    · simp [dictUpdate, lookupClaim, h, ih]

end AuthUtils

namespace JwtPractice

open AuthUtils

/-- `create_acess_token` (sic) from `Practices/jwt_practice.py`: identical to
the course variant but with secret `"secretkey"` and literal defaults. -/
def create_acess_token (now : ℤ) (data : Claims) (expires_delta : Option ℤ) :
    TokenWire :=
  let to_encode := data
  let expire := now +
    (match expires_delta with
     | none => 30 * 60
     | some d => d)
  jwtEncode (dictUpdate to_encode "exp" (JValue.num expire)) "secretkey" "HS256"

/-- `decode_access_token` from `Practices/jwt_practice.py`. -/
def decode_access_token (now : ℤ) (token : TokenWire) : Option Claims :=
  match jwtDecode token "secretkey" ["HS256"] now with
  | Except.ok payload => some payload
  | Except.error _ => none

end JwtPractice

section TokenClaims

open AuthUtils

/-- C1: For every claims mapping C and every duration D, verifying a token
immediately after issuing it (at any time before the encoded expiry `now + D`)
succeeds and returns C with an `"exp"` entry encoding `now + D`; realized by
`decode_access_token (create_access_token C D)` in both the course variant and
the `Practices/jwt_practice.py` variant. -/
theorem decode_after_create_roundtrip (C : Claims) (D now nowV : ℤ)
    (h : nowV < now + D) :
    (decode_access_token nowV (create_access_token now C (some D)) =
      some (dictUpdate C "exp" (JValue.num (now + D)))) ∧
    (JwtPractice.decode_access_token nowV (JwtPractice.create_acess_token now C (some D)) =
      some (dictUpdate C "exp" (JValue.num (now + D)))) := by
  constructor
  · simp [decode_access_token, create_access_token, jwtEncode, jwtDecode,
      lookupClaim_dictUpdate_self, h]
  · simp [JwtPractice.decode_access_token, JwtPractice.create_acess_token, jwtEncode,
      jwtDecode, lookupClaim_dictUpdate_self, h]

theorem decode_after_create_roundtrip_witness :
    (decode_access_token 100
        (create_access_token 0 [("sub", JValue.str "isfar")] (some 1800)) =
      some (dictUpdate [("sub", JValue.str "isfar")] "exp" (JValue.num (0 + 1800)))) ∧
    (JwtPractice.decode_access_token 100
        (JwtPractice.create_acess_token 0 [("sub", JValue.str "isfar")] (some 1800)) =
      some (dictUpdate [("sub", JValue.str "isfar")] "exp" (JValue.num (0 + 1800)))) :=
  decode_after_create_roundtrip [("sub", JValue.str "isfar")] 1800 0 100 (by decide)

/-- C2: A structurally well-formed token carrying an expiry claim `e` is
accepted by `decode_access_token` at time `now` if and only if it was signed
with the shared secret and algorithm and `now` is before `e`; in particular
every such token is rejected (result `none`) once its expiry has passed,
whatever secret it was signed with. -/
theorem decode_valid_iff (payload : Claims) (secret alg : String) (e now : ℤ)
    (hexp : lookupClaim payload "exp" = some (JValue.num e)) :
    (decode_access_token now (TokenWire.signed payload secret alg) = some payload ↔
      secret = SECRET_KEY ∧ alg = ALGORITHM ∧ now < e) ∧
    (e ≤ now →
      decode_access_token now (TokenWire.signed payload secret alg) = none) := by
  constructor
  · constructor
    · intro hok
      by_cases halg : alg = ALGORITHM
      · by_cases hsec : secret = SECRET_KEY
        · by_cases htime : now < e
          · exact ⟨hsec, halg, htime⟩
          · simp [decode_access_token, jwtDecode, halg, hsec, hexp, htime] at hok
        · simp [decode_access_token, jwtDecode, halg, hsec] at hok
      · simp [decode_access_token, jwtDecode, halg] at hok
    · rintro ⟨hsec, halg, htime⟩
      simp [decode_access_token, jwtDecode, halg, hsec, hexp, htime]
  · intro hpast
    by_cases halg : alg = ALGORITHM
    · by_cases hsec : secret = SECRET_KEY
      · simp [decode_access_token, jwtDecode, halg, hsec, hexp, not_lt.mpr hpast]
      · simp [decode_access_token, jwtDecode, halg, hsec]
    · simp [decode_access_token, jwtDecode, halg]

theorem decode_valid_iff_witness :
    (decode_access_token 50
        (TokenWire.signed [("exp", JValue.num 100)] SECRET_KEY ALGORITHM) =
        some [("exp", JValue.num 100)] ↔
      SECRET_KEY = SECRET_KEY ∧ ALGORITHM = ALGORITHM ∧ (50 : ℤ) < 100) ∧
    ((100 : ℤ) ≤ 50 →
      decode_access_token 50
        (TokenWire.signed [("exp", JValue.num 100)] SECRET_KEY ALGORITHM) = none) :=
  decode_valid_iff [("exp", JValue.num 100)] SECRET_KEY ALGORITHM 100 50 rfl

/-- C3: `decode_access_token` is a total function of the input token: every
failure kind of the underlying decode (bad signature, malformed structure,
expired or ill-typed claim) is caught and collapsed to the single invalid
result `none`, with no distinction between failure kinds, and every success
returns the embedded claims. -/
theorem decode_total_collapse (w : TokenWire) (now : ℤ) :
    (∀ e : JWTErrKind,
      jwtDecode w SECRET_KEY [ALGORITHM] now = Except.error e →
      decode_access_token now w = none) ∧
    (∀ p : Claims,
      jwtDecode w SECRET_KEY [ALGORITHM] now = Except.ok p →
      decode_access_token now w = some p) := by
  constructor
  · intro e h
    simp [decode_access_token, h]
  · intro p h
    simp [decode_access_token, h]

theorem decode_total_collapse_witness :
    decode_access_token 0 (TokenWire.malformed "not.a.jwt") = none :=
  (decode_total_collapse (TokenWire.malformed "not.a.jwt") 0).1
    JWTErrKind.malformedToken rfl

/-- C9: `create_access_token` computes the expiry as `now` plus the supplied
duration, falling back to the fixed 30-minute constant when none is supplied,
and merges `{"exp": expiry}` into the claims — overwriting any `"exp"` entry
the caller's claims already contained — before signing with the shared secret
and algorithm. -/
theorem create_access_token_expiry (now : ℤ) (data : Claims) (d : ℤ) :
    (create_access_token now data none =
      TokenWire.signed
        (dictUpdate data "exp" (JValue.num (now + ACCESS_TOKEN_EXPIRE_MINUTES * 60)))
        SECRET_KEY ALGORITHM) ∧
    (create_access_token now data (some d) =
      TokenWire.signed (dictUpdate data "exp" (JValue.num (now + d)))
        SECRET_KEY ALGORITHM) ∧
    (lookupClaim (dictUpdate data "exp" (JValue.num (now + d))) "exp" =
      some (JValue.num (now + d))) :=
  ⟨rfl, rfl, lookupClaim_dictUpdate_self data "exp" _⟩

end TokenClaims

namespace RateLimit

/-- A Starlette `Response(content=..., status_code=..., media_type=...)`. -/
structure Response where
  content : String
  status_code : ℕ
  media_type : String
deriving DecidableEq, Repr

/-- The middleware's `self.rate_limit_records` dictionary: client address keys
mapped to lists of request timestamps, in insertion order. -/
abbrev Records := List (String × List ℚ)

/-- `records[ip]` lookup on the first occurrence of the key. -/
def lookupRec : Records → String → Option (List ℚ)
  | [], _ => none
  | (k, v) :: rest, key => if k = key then some v else lookupRec rest key

/-- `records[ip] = times`: replace the value at the first occurrence of the
key, keeping its position, or append the pair if absent. -/
def setRec : Records → String → List ℚ → Records
  | [], key, val => [(key, val)]
  | (k, v) :: rest, key, val =>
    if k = key then (k, val) :: rest else (k, v) :: setRec rest key val

/-- `window_time = 1  # 1 second window`. -/
def window_time : ℚ := 1

/-- `max_requests = 2  # Max 2 requests per second`. -/
def max_requests : ℕ := 2

/-- The fixed 429 response built in the rejection branch. -/
def rateLimitResponse : Response :=
  { content := "\x7b\"error\": \"Rate limit exceeded. Max 2 requests per second allowed.\"\x7d"
    status_code := 429
    media_type := "application/json" }

/-- The pruned-and-appended timestamp list that one `dispatch` call computes
for the requesting client: its stored timestamps (empty when absent) with
entries at or before `current_time - window_time` removed and `current_time`
appended. -/
def newTimes (records : Records) (client_ip : String) (current_time : ℚ) :
    List ℚ :=
  (((lookupRec records client_ip).getD []).filter
      (fun t => decide (current_time - window_time < t))) ++ [current_time]

/-- `RateLimitMiddleware.dispatch` from
`Youtube Tuts/12. Middleware Advanced(Rate Limit)/main.py`, as a pure state
transformer.  `call_next` stands for the response of the wrapped handler chain
for this request; the middleware never reads the request beyond
`request.client.host`, so the request is embedded as `client_ip` alone, and
`time.time()` is the explicit `current_time` argument.  Returns the response
sent to the client together with the updated records. -/
def dispatch (records : Records) (client_ip : String) (current_time : ℚ)
    (call_next : Response) : Response × Records :=
  let records1 :=
    if (lookupRec records client_ip).isNone then setRec records client_ip []
    else records
  let request_times := (lookupRec records1 client_ip).getD []
  let request_times := request_times.filter
    (fun t => decide (current_time - window_time < t))
  let request_times := request_times ++ [current_time]
  let records2 := setRec records1 client_ip request_times
  if max_requests < request_times.length then (rateLimitResponse, records2)
  else (call_next, records2)

/-- The middleware starts with `self.rate_limit_records = {}` and folds
`dispatch` over the request trace; each request is a (client address,
arrival time) pair. -/
def processTrace (reqs : List (String × ℚ)) (call_next : Response) : Records :=
  reqs.foldl (fun s r => (dispatch s r.1 r.2 call_next).2) []

/-- The arrival times of one client's requests within a trace, in order. -/
def clientTimes (c : String) (reqs : List (String × ℚ)) : List ℚ :=
  (reqs.filter (fun r => decide (r.1 = c))).map Prod.snd

theorem lookupRec_setRec_self (s : Records) (k : String) (v : List ℚ) :
    lookupRec (setRec s k v) k = some v := by
  induction s with
  | nil => simp [setRec, lookupRec]
  | cons hd tl ih =>
    by_cases h : hd.1 = k
    · simp [setRec, lookupRec, h]
    · simp [setRec, lookupRec, h, ih]

theorem lookupRec_setRec_ne (s : Records) (k q : String) (v : List ℚ)
    (h : q ≠ k) :
    lookupRec (setRec s k v) q = lookupRec s q := by
  have hkq : ¬k = q := fun e => h e.symm
  induction s with
  | nil => simp [setRec, lookupRec, hkq]
  | cons hd tl ih =>
    by_cases hk : hd.1 = k
    · simp [setRec, lookupRec, hk, hkq]
    · by_cases hq : hd.1 = q
      · simp [setRec, lookupRec, hk, hq, h]
      · simp [setRec, lookupRec, hk, hq, ih]

theorem dispatch_snd_lookup_self (s : Records) (ip : String) (now : ℚ)
    (cn : Response) :
    lookupRec (dispatch s ip now cn).2 ip = some (newTimes s ip now) := by
  by_cases h : (lookupRec s ip).isNone
  · have h0 : lookupRec s ip = none := Option.isNone_iff_eq_none.mp h
    simp [dispatch, newTimes, h0, lookupRec_setRec_self, apply_ite]
  · have h0 : ¬lookupRec s ip = none := fun he => h (Option.isNone_iff_eq_none.mpr he)
    simp [dispatch, newTimes, Option.isNone_iff_eq_none, h0, lookupRec_setRec_self,
      apply_ite]

theorem dispatch_snd_lookup_ne (s : Records) (ip : String) (now : ℚ)
    (cn : Response) (q : String) (h : q ≠ ip) :
    lookupRec (dispatch s ip now cn).2 q = lookupRec s q := by
  have hset : ∀ (s2 : Records) (v : List ℚ),
      lookupRec (setRec s2 ip v) q = lookupRec s2 q :=
    fun s2 v => lookupRec_setRec_ne s2 ip q v h
  by_cases hm : (lookupRec s ip).isNone
  · simp [dispatch, hm, apply_ite, hset]
  · simp [dispatch, hm, apply_ite, hset]

theorem dispatch_fst_eq (s : Records) (ip : String) (now : ℚ) (cn : Response) :
    (dispatch s ip now cn).1 =
      if max_requests < (newTimes s ip now).length then rateLimitResponse
      else cn := by
  by_cases hm : (lookupRec s ip).isNone
  · have h0 : lookupRec s ip = none := Option.isNone_iff_eq_none.mp hm
    simp [dispatch, newTimes, h0, lookupRec_setRec_self, apply_ite]
    split <;> simp_all
  · have h0 : ¬lookupRec s ip = none := fun he => hm (Option.isNone_iff_eq_none.mpr he)
    simp [dispatch, newTimes, Option.isNone_iff_eq_none, h0, apply_ite]
    split <;> simp_all

/-- The response of the `read_root` handler, used as a sample handler
response in concrete scenarios. -/
def okResponse : Response :=
  { content := "\x7b\"message\": \"Hello, World!\"\x7d"
    status_code := 200
    media_type := "application/json" }

theorem newTimes_eq (s : Records) (ip : String) (now : ℚ) (l : List ℚ)
    (h : lookupRec s ip = some l) :
    newTimes s ip now =
      l.filter (fun t => decide (now - window_time < t)) ++ [now] := by
  simp [newTimes, h]

theorem newTimes_of_none (s : Records) (ip : String) (now : ℚ)
    (h : lookupRec s ip = none) :
    newTimes s ip now = [now] := by
  simp [newTimes, h]

theorem filter_filter_window (l : List ℚ) (a b : ℚ) (hab : a ≤ b) :
    (l.filter (fun u => decide (a - window_time < u))).filter
        (fun u => decide (b - window_time < u)) =
      l.filter (fun u => decide (b - window_time < u)) := by
  induction l with
  | nil => rfl
  | cons x xs ih =>
    by_cases hax : a - window_time < x
    · by_cases hbx : b - window_time < x
      · simp [List.filter_cons, hax, hbx, ih]
      · simp [List.filter_cons, hax, hbx, ih]
    · have hbx : ¬b - window_time < x := fun hc => hax (by linarith)
      simp [List.filter_cons, hax, hbx, ih]

theorem processFrom_filter (reqs : List (String × ℚ)) (s : Records) (c : String)
    (t : ℚ) (cn : Response) (hb : ∀ r ∈ reqs, r.2 ≤ t) :
    ((lookupRec (reqs.foldl (fun st r => (dispatch st r.1 r.2 cn).2) s) c).getD []).filter
        (fun u => decide (t - window_time < u)) =
      (((lookupRec s c).getD []) ++ clientTimes c reqs).filter
        (fun u => decide (t - window_time < u)) := by
  induction reqs generalizing s with
  | nil => simp [clientTimes]
  | cons r rest ih =>
    have hrt : r.2 ≤ t := hb r (List.mem_cons_self r rest)
    have hrest : ∀ x ∈ rest, x.2 ≤ t := fun x hx => hb x (List.mem_cons_of_mem r hx)
    have hstep := ih ((dispatch s r.1 r.2 cn).2) hrest
    rw [List.foldl_cons, hstep]
    by_cases hc : c = r.1
    · subst hc
      rw [dispatch_snd_lookup_self]
      simp only [Option.getD_some, newTimes, clientTimes, List.filter_cons,
        decide_eq_true_eq]
      simp only [List.append_assoc, List.filter_append, List.singleton_append]
      rw [filter_filter_window _ r.2 t hrt]
      simp [clientTimes]
    · rw [dispatch_snd_lookup_ne s r.1 r.2 cn c hc]
      have : clientTimes c (r :: rest) = clientTimes c rest := by
        have hne : ¬r.1 = c := fun e => hc e.symm
        simp [clientTimes, List.filter_cons, hne]
      rw [this]

end RateLimit

section RateLimitClaims

open RateLimit

/-- C5: On every request, after pruning and appending the current timestamp,
the middleware returns the fixed 429 JSON error response — independently of
the wrapped handler's response — exactly when the resulting list length
exceeds `max_requests`, and otherwise returns the handler's response
unchanged; and in both cases the pruned-and-appended timestamp list is stored
back under the client key, so rejected requests are also recorded. -/
theorem dispatch_reject_accept_store (s : Records) (ip : String) (now : ℚ)
    (cn : Response) :
    ((dispatch s ip now cn).1 =
      if max_requests < (newTimes s ip now).length then rateLimitResponse
      else cn) ∧
    rateLimitResponse.status_code = 429 ∧
    rateLimitResponse.media_type = "application/json" ∧
    lookupRec (dispatch s ip now cn).2 ip = some (newTimes s ip now) :=
  ⟨dispatch_fst_eq s ip now cn, rfl, rfl, dispatch_snd_lookup_self s ip now cn⟩

/-- C4: With `max_requests = 2` and `window_time = 1`, a client with no prior
record issuing 3 requests within one window has the first 2 passed through
(the handler's response is returned) and the 3rd rejected with the rate-limit
response; a 4th request from the same client whose earlier timestamps are all
older than now minus the window is passed through again. -/
theorem rate_limit_burst_scenario (s0 : Records) (ip : String)
    (t1 t2 t3 t4 : ℚ) (cn : Response)
    (h0 : lookupRec s0 ip = none) (h12 : t1 ≤ t2) (h23 : t2 ≤ t3)
    (hwin : t3 - window_time < t1) (hgap : t3 < t4 - window_time) :
    (dispatch s0 ip t1 cn).1 = cn ∧
    (dispatch (dispatch s0 ip t1 cn).2 ip t2 cn).1 = cn ∧
    (dispatch (dispatch (dispatch s0 ip t1 cn).2 ip t2 cn).2 ip t3 cn).1 =
      rateLimitResponse ∧
    (dispatch (dispatch (dispatch (dispatch s0 ip t1 cn).2 ip t2 cn).2 ip t3 cn).2
        ip t4 cn).1 = cn := by
  have e1 : newTimes s0 ip t1 = [t1] := newTimes_of_none s0 ip t1 h0
  have l1 : lookupRec (dispatch s0 ip t1 cn).2 ip = some [t1] := by
    rw [dispatch_snd_lookup_self, e1]
  have e2 : newTimes (dispatch s0 ip t1 cn).2 ip t2 = [t1, t2] := by
    rw [newTimes_eq _ _ _ _ l1]
    have h : t2 - window_time < t1 := by linarith
    simp [List.filter_cons, h]
  have l2 : lookupRec (dispatch (dispatch s0 ip t1 cn).2 ip t2 cn).2 ip =
      some [t1, t2] := by
    rw [dispatch_snd_lookup_self, e2]
  have e3 : newTimes (dispatch (dispatch s0 ip t1 cn).2 ip t2 cn).2 ip t3 =
      [t1, t2, t3] := by
    rw [newTimes_eq _ _ _ _ l2]
    have ha : t3 - window_time < t1 := hwin
    have hbq : t3 - window_time < t2 := by linarith
    simp [List.filter_cons, ha, hbq]
  have l3 : lookupRec
      (dispatch (dispatch (dispatch s0 ip t1 cn).2 ip t2 cn).2 ip t3 cn).2 ip =
      some [t1, t2, t3] := by
    rw [dispatch_snd_lookup_self, e3]
  have e4 : newTimes
      (dispatch (dispatch (dispatch s0 ip t1 cn).2 ip t2 cn).2 ip t3 cn).2 ip t4 =
      [t4] := by
    rw [newTimes_eq _ _ _ _ l3]
    have ha : ¬t4 - window_time < t1 := by linarith
    have hbq : ¬t4 - window_time < t2 := by linarith
    have hcq : ¬t4 - window_time < t3 := by linarith
    simp [List.filter_cons, ha, hbq, hcq]
  refine ⟨?_, ?_, ?_, ?_⟩
  · rw [dispatch_fst_eq, e1]
    simp [max_requests]
  · rw [dispatch_fst_eq, e2]
    simp [max_requests]
  · rw [dispatch_fst_eq, e3]
    simp [max_requests]
  · rw [dispatch_fst_eq, e4]
    simp [max_requests]

theorem rate_limit_burst_scenario_witness :
    (dispatch [] "1.2.3.4" 0 okResponse).1 = okResponse ∧
    (dispatch (dispatch [] "1.2.3.4" 0 okResponse).2 "1.2.3.4" (1/4) okResponse).1 =
      okResponse ∧
    (dispatch (dispatch (dispatch [] "1.2.3.4" 0 okResponse).2 "1.2.3.4" (1/4)
        okResponse).2 "1.2.3.4" (1/2) okResponse).1 = rateLimitResponse ∧
    (dispatch (dispatch (dispatch (dispatch [] "1.2.3.4" 0 okResponse).2 "1.2.3.4"
        (1/4) okResponse).2 "1.2.3.4" (1/2) okResponse).2 "1.2.3.4" 2 okResponse).1 =
      okResponse :=
  rate_limit_burst_scenario [] "1.2.3.4" 0 (1/4) (1/2) 2 okResponse rfl
    (by norm_num) (by norm_num) (by norm_num [window_time])
    (by norm_num [window_time])

/-- C6: One `dispatch` call reads and mutates only the requesting client's
record — its outcome depends only on that record and every other client key's
record is left unchanged — and hence, with `max_requests = 2` and
`window_time = 1`, two requests from client A and two from client B inside the
same window all four pass. -/
theorem rate_limit_independent_clients :
    (∀ (s : Records) (ip : String) (now : ℚ) (cn : Response) (q : String),
      q ≠ ip → lookupRec (dispatch s ip now cn).2 q = lookupRec s q) ∧
    (∀ (s sB : Records) (ip : String) (now : ℚ) (cn : Response),
      lookupRec s ip = lookupRec sB ip →
      (dispatch s ip now cn).1 = (dispatch sB ip now cn).1 ∧
      lookupRec (dispatch s ip now cn).2 ip =
        lookupRec (dispatch sB ip now cn).2 ip) ∧
    (∀ (A B : String) (t1 t2 t3 t4 : ℚ) (cn : Response),
      A ≠ B → t1 ≤ t2 → t2 ≤ t3 → t3 ≤ t4 → t4 - window_time < t1 →
      (dispatch [] A t1 cn).1 = cn ∧
      (dispatch (dispatch [] A t1 cn).2 B t2 cn).1 = cn ∧
      (dispatch (dispatch (dispatch [] A t1 cn).2 B t2 cn).2 A t3 cn).1 = cn ∧
      (dispatch (dispatch (dispatch (dispatch [] A t1 cn).2 B t2 cn).2 A t3 cn).2
          B t4 cn).1 = cn) := by
  refine ⟨dispatch_snd_lookup_ne, ?_, ?_⟩
  · intro s sB ip now cn h
    have hnt : newTimes s ip now = newTimes sB ip now := by
      unfold newTimes
      rw [h]
    constructor
    · rw [dispatch_fst_eq, dispatch_fst_eq, hnt]
    · rw [dispatch_snd_lookup_self, dispatch_snd_lookup_self, hnt]
  · intro A B t1 t2 t3 t4 cn hAB h12 h23 h34 hwin
    have e1 : newTimes [] A t1 = [t1] := newTimes_of_none [] A t1 rfl
    have l1A : lookupRec (dispatch [] A t1 cn).2 A = some [t1] := by
      rw [dispatch_snd_lookup_self, e1]
    have l1B : lookupRec (dispatch [] A t1 cn).2 B = none := by
      rw [dispatch_snd_lookup_ne [] A t1 cn B (Ne.symm hAB)]
      rfl
    have e2 : newTimes (dispatch [] A t1 cn).2 B t2 = [t2] :=
      newTimes_of_none _ B t2 l1B
    have l2A : lookupRec (dispatch (dispatch [] A t1 cn).2 B t2 cn).2 A =
        some [t1] := by
      rw [dispatch_snd_lookup_ne _ B t2 cn A hAB, l1A]
    have l2B : lookupRec (dispatch (dispatch [] A t1 cn).2 B t2 cn).2 B =
        some [t2] := by
      rw [dispatch_snd_lookup_self, e2]
    have e3 : newTimes (dispatch (dispatch [] A t1 cn).2 B t2 cn).2 A t3 =
        [t1, t3] := by
      rw [newTimes_eq _ _ _ _ l2A]
      have h : t3 - window_time < t1 := by linarith
      simp [List.filter_cons, h]
    have l3B : lookupRec
        (dispatch (dispatch (dispatch [] A t1 cn).2 B t2 cn).2 A t3 cn).2 B =
        some [t2] := by
      rw [dispatch_snd_lookup_ne _ A t3 cn B (Ne.symm hAB), l2B]
    have e4 : newTimes
        (dispatch (dispatch (dispatch [] A t1 cn).2 B t2 cn).2 A t3 cn).2 B t4 =
        [t2, t4] := by
      rw [newTimes_eq _ _ _ _ l3B]
      have h : t4 - window_time < t2 := by linarith
      simp [List.filter_cons, h]
    refine ⟨?_, ?_, ?_, ?_⟩
    · rw [dispatch_fst_eq, e1]
      simp [max_requests]
    · rw [dispatch_fst_eq, e2]
      simp [max_requests]
    · rw [dispatch_fst_eq, e3]
      simp [max_requests]
    · rw [dispatch_fst_eq, e4]
      simp [max_requests]

theorem rate_limit_independent_clients_witness :
    (dispatch [] "10.0.0.1" 0 okResponse).1 = okResponse ∧
    (dispatch (dispatch [] "10.0.0.1" 0 okResponse).2 "10.0.0.2" (1/4)
        okResponse).1 = okResponse ∧
    (dispatch (dispatch (dispatch [] "10.0.0.1" 0 okResponse).2 "10.0.0.2" (1/4)
        okResponse).2 "10.0.0.1" (1/2) okResponse).1 = okResponse ∧
    (dispatch (dispatch (dispatch (dispatch [] "10.0.0.1" 0 okResponse).2
        "10.0.0.2" (1/4) okResponse).2 "10.0.0.1" (1/2) okResponse).2 "10.0.0.2"
        (3/4) okResponse).1 = okResponse :=
  rate_limit_independent_clients.2.2 "10.0.0.1" "10.0.0.2" 0 (1/4) (1/2) (3/4)
    okResponse (by decide) (by norm_num) (by norm_num) (by norm_num)
    (by norm_num [window_time])

/-- C10: For every request trace with non-decreasing arrival times, after the
middleware finishes processing a request from client `c` at time `t` — whether
accepted or rejected — the stored record for `c` is exactly the arrival times
of `c`'s requests that are strictly greater than `t` minus the window size, in
arrival order; and no client key is ever removed from the records map. -/
theorem stored_record_characterization (reqs : List (String × ℚ)) (c : String)
    (t : ℚ) (cn : Response)
    (hsorted : List.Sorted (· ≤ ·) ((reqs ++ [(c, t)]).map Prod.snd)) :
    (lookupRec (processTrace (reqs ++ [(c, t)]) cn) c =
      some ((clientTimes c (reqs ++ [(c, t)])).filter
        (fun u => decide (t - window_time < u)))) ∧
    (∀ (s : Records) (ip : String) (now : ℚ) (cnB : Response) (q : String)
        (l : List ℚ),
      lookupRec s q = some l →
      ∃ lB, lookupRec (dispatch s ip now cnB).2 q = some lB) := by
  constructor
  · have hb : ∀ r ∈ reqs, r.2 ≤ t := by
      intro r hr
      have hp := (List.pairwise_append.mp
        (by simpa [List.Sorted, List.map_append] using hsorted)).2.2
      exact hp r.2 (List.mem_map_of_mem Prod.snd hr) t (List.mem_singleton_self t)
    have hkey := processFrom_filter reqs [] c t cn hb
    have hfold : processTrace (reqs ++ [(c, t)]) cn =
        (dispatch (processTrace reqs cn) c t cn).2 := by
      simp [processTrace, List.foldl_append]
    rw [hfold, dispatch_snd_lookup_self]
    have hlook : newTimes (processTrace reqs cn) c t =
        (clientTimes c reqs).filter (fun u => decide (t - window_time < u)) ++
          [t] := by
      unfold newTimes
      rw [show ((lookupRec (processTrace reqs cn) c).getD []).filter
            (fun u => decide (t - window_time < u)) =
          (clientTimes c reqs).filter (fun u => decide (t - window_time < u))
        from by simpa [processTrace, lookupRec] using hkey]
    rw [hlook]
    have hct : clientTimes c (reqs ++ [(c, t)]) = clientTimes c reqs ++ [t] := by
      simp [clientTimes, List.filter_append]
    rw [hct, List.filter_append]
    have hself : t - window_time < t := by norm_num [window_time]
    simp [hself]
  · intro s ip now cnB q l hl
    by_cases hq : q = ip
    · subst hq
      exact ⟨newTimes s q now, dispatch_snd_lookup_self s q now cnB⟩
    · exact ⟨l, by rw [dispatch_snd_lookup_ne s ip now cnB q hq, hl]⟩

theorem stored_record_characterization_witness :
    lookupRec (processTrace ([(("a" : String), (0 : ℚ)), ("a", 1/2)] ++
        [("a", (2 : ℚ))]) okResponse) "a" =
      some ((clientTimes "a" ([(("a" : String), (0 : ℚ)), ("a", 1/2)] ++
        [("a", (2 : ℚ))])).filter (fun u => decide ((2 : ℚ) - window_time < u))) :=
  (stored_record_characterization [("a", 0), ("a", 1/2)] "a" 2 okResponse
    (by norm_num [List.Sorted])).1

end RateLimitClaims

namespace PasswordHashing

/-- Modelled from the spec: the salted one-way digest produced by the external
`passlib` bcrypt `CryptContext` (not part of this repository) — "hash(plaintext)
→ salted one-way digest using a configurable slow hash algorithm".  The digest
is idealized as determined injectively by salt and plaintext (no collisions),
which is exactly the assumption under which the spec's round-trip property is
meaningful. -/
structure Digest where
  salt : ℕ
  body : String
deriving DecidableEq, Repr

/-- The value passed as the second argument of `CryptContext.verify`: either a
digest string, or — as happens in `Practices/jwt_practice.py` — Python's
builtin `hash` function object. -/
inductive PyObject where
  | pstr (d : Digest)
  | builtinHashFn
deriving DecidableEq, Repr

/-- Modelled from the spec: `password_context.hash` of the external `passlib`
library, with the salt made explicit. -/
def contextHash (salt : ℕ) (password : String) : Digest :=
  { salt := salt, body := password }

/-- Modelled from the spec: `password_context.verify(secret, hash)` of the
external `passlib` library — "verify(plaintext, digest) → boolean".  On a
digest it recomputes the slow hash with the digest's salt and compares; on a
non-string argument `passlib` raises a TypeError (`ExpectedStringError`). -/
def contextVerify (plain : String) (h : PyObject) : Except String Bool :=
  match h with
  | PyObject.pstr d => Except.ok (decide (contextHash d.salt plain = d))
  | PyObject.builtinHashFn =>
    Except.error "TypeError: hash must be unicode or bytes"

/-- `hash_password` from
`Course_by_ProgrammingKnowledge/11. JWT Access Token Creation/auth_utils.py`
and `Youtube Tuts/14. n8n with FastAPI/auth_utils.py` (identical bodies). -/
def hash_password (salt : ℕ) (password : String) : Digest :=
  contextHash salt password

/-- `verify_password` from the same two `auth_utils.py` variants:
`password_context.verify(plain_password, hashed_password)`. -/
def verify_password (plain_password : String) (hashed_password : Digest) :
    Except String Bool :=
  contextVerify plain_password (PyObject.pstr hashed_password)

end PasswordHashing

namespace JwtPractice

/-- `hash_password` from `Practices/jwt_practice.py`. -/
def hash_password (salt : ℕ) (password : String) : PasswordHashing.Digest :=
  PasswordHashing.contextHash salt password

/-- `verify_password` from `Practices/jwt_practice.py`: the body is
`password_context.verify(password, hash)`, and the name `hash` is not the
parameter (which is spelled `has` and never used) but Python's builtin `hash`
function. -/
def verify_password (password : String) (has : PasswordHashing.PyObject) :
    Except String Bool :=
  PasswordHashing.contextVerify password PasswordHashing.PyObject.builtinHashFn

end JwtPractice

section PasswordClaims

/-- C7 (code bug in `Practices/jwt_practice.py`): the course/n8n
`verify_password` satisfies the round-trip property — true on the matching
plaintext, false on a distinct plaintext — but the `Practices` variant passes
the builtin `hash` function instead of its `has` parameter to
`CryptContext.verify`, so even on a matching plaintext/digest pair it raises a
TypeError instead of returning true. -/
theorem practice_verify_password_broken :
    PasswordHashing.verify_password "mypassword"
        (PasswordHashing.hash_password 0 "mypassword") = Except.ok true ∧
    PasswordHashing.verify_password "otherpassword"
        (PasswordHashing.hash_password 0 "mypassword") = Except.ok false ∧
    JwtPractice.verify_password "mypassword"
        (PasswordHashing.PyObject.pstr (JwtPractice.hash_password 0 "mypassword")) =
      Except.error "TypeError: hash must be unicode or bytes" :=
  ⟨rfl, rfl, rfl⟩

end PasswordClaims

namespace AuthUtilsRefresh

open AuthUtils

/-- Modelled from the spec: the refresh-token default duration of the missing
`Youtube Tuts/11. JWT Access Token Creation/auth_utils.py` (its `app.py`
imports `create_refresh_token` and `decode_refresh_token`, but the module
itself is not among the sources).  The spec fixes only that the refresh
default is "longer" than the 30-minute access default; 7 days stands in as a
representative value. -/
def REFRESH_TOKEN_EXPIRE_MINUTES : ℤ := 7 * 24 * 60

/-- Modelled from the spec: `create_refresh_token` from the missing
`auth_utils.py` — access and refresh tokens "share this same operation with
different default durations" and "the reference scripts reuse the same secret
for both". -/
def create_refresh_token (now : ℤ) (data : Claims) (expires_delta : Option ℤ) :
    TokenWire :=
  let expire := now +
    (match expires_delta with
     | none => REFRESH_TOKEN_EXPIRE_MINUTES * 60
     | some d => d)
  jwtEncode (dictUpdate data "exp" (JValue.num expire)) SECRET_KEY ALGORITHM

/-- Modelled from the spec: `decode_refresh_token` from the missing
`auth_utils.py`, verifying with the same shared secret and algorithm as
access-token verification. -/
def decode_refresh_token (now : ℤ) (token : TokenWire) : Option Claims :=
  match jwtDecode token SECRET_KEY [ALGORITHM] now with
  | Except.ok payload => some payload
  | Except.error _ => none

end AuthUtilsRefresh

section RefreshClaims

open AuthUtils

/-- C8: a refresh-token creation and verification operation exist alongside
the access-token ones; issuance with an explicit duration is the very same
operation, the two variants differ only in their default duration (the refresh
default being longer), and both sign and verify with the same shared secret
and algorithm. -/
theorem refresh_and_access_variants (now : ℤ) (data : Claims) (d : ℤ)
    (w : TokenWire) :
    AuthUtilsRefresh.create_refresh_token now data (some d) =
      create_access_token now data (some d) ∧
    ACCESS_TOKEN_EXPIRE_MINUTES < AuthUtilsRefresh.REFRESH_TOKEN_EXPIRE_MINUTES ∧
    AuthUtilsRefresh.decode_refresh_token now w = decode_access_token now w ∧
    AuthUtilsRefresh.create_refresh_token now data none =
      TokenWire.signed
        (dictUpdate data "exp"
          (JValue.num (now + AuthUtilsRefresh.REFRESH_TOKEN_EXPIRE_MINUTES * 60)))
        SECRET_KEY ALGORITHM :=
  ⟨rfl, by decide, rfl, rfl⟩

end RefreshClaims
